import Mathlib

/-!
Shallow embedding of the client-side behavior implemented in `js/main.js` of the
portfolio repository, together with theorems checking the natural-language
specification against it.  Pure functions of the source become Lean functions;
the stateful parts (theme store, scroll coordinator, particle scene, handlers)
become explicit state-passing functions or step functions on small state types.
-/

namespace Portfolio

/-! ### JavaScript string primitives used by the source

`String.prototype.trim` and the regex class `\s` use the JS whitespace set
(ASCII whitespace control chars, space, NBSP, and the Unicode space
separators, line/paragraph separators and BOM). -/

/-- The character class matched by `\s` in a JS regex, which is also the set
stripped by `String.prototype.trim`. -/
def isJsWhitespace (c : Char) : Bool :=
  let n := c.toNat
  (9 ≤ n && n ≤ 13) || n == 32 || n == 0xA0 || n == 0x1680 ||
    (0x2000 ≤ n && n ≤ 0x200A) || n == 0x2028 || n == 0x2029 ||
    n == 0x202F || n == 0x205F || n == 0x3000 || n == 0xFEFF

/-- `value.trim()` from `validateField` (main.js line 294): strips JS
whitespace from both ends. -/
def jsTrim (s : List Char) : List Char :=
  ((s.dropWhile isJsWhitespace).reverse.dropWhile isJsWhitespace).reverse

/-! ### The email regex `^[^\s@]+@[^\s@]+\.[^\s@]+$` (main.js line 302)

The pattern anchors at both ends, so a string matches iff it decomposes as
`A ++ "@" ++ B ++ "." ++ C` where `A`, `B`, `C` are nonempty and consist of
characters that are neither JS whitespace nor `@`. -/

/-- A character admissible inside `[^\s@]`. -/
def emailAtomChar (c : Char) : Bool :=
  !isJsWhitespace c && c != '@'

/-- A nonempty run matching `[^\s@]+`. -/
def emailSeg (l : List Char) : Bool :=
  !l.isEmpty && l.all emailAtomChar

/-- The domain part `[^\s@]+\.[^\s@]+`: some occurrence of `.` splits the
list into two nonempty `[^\s@]+` segments. -/
def emailDomain (l : List Char) : Bool :=
  (List.range l.length).any fun j =>
    l.getD j ' ' == '.' && emailSeg (l.take j) && emailSeg (l.drop (j + 1))

/-- Full-string match of `^[^\s@]+@[^\s@]+\.[^\s@]+$`: some occurrence of `@`
splits the input into a local part matching `[^\s@]+` and a domain part
matching `[^\s@]+\.[^\s@]+`. -/
def emailRegexTest (s : List Char) : Bool :=
  (List.range s.length).any fun i =>
    s.getD i ' ' == '@' && emailSeg (s.take i) && emailDomain (s.drop (i + 1))

/-! ### Field validation (main.js lines 293-322)

A form field carries its raw value, its `required` attribute, whether its
`type` is `email`, its Bootstrap validation classes, and the text of an
adjacent `.invalid-feedback` element when one exists (`none` models the
absence of such a sibling). -/

/-- A form field element as `validateField` sees it. -/
structure FieldEl where
  value : List Char
  required : Bool
  isEmailType : Bool
  isValidClass : Bool
  isInvalidClass : Bool
  feedbackText : Option (List Char)
  deriving Repr, DecidableEq

/-- The verdict/message computation of `validateField` (main.js lines
294-307): trim the value; a required field with empty trimmed value is
invalid with the required message; otherwise a non-empty value on an email
field must pass the regex; everything else is valid with empty message. -/
def validateFieldCore (f : FieldEl) : Bool × List Char :=
  let value := jsTrim f.value
  if f.required && value.isEmpty then
    (false, "This field is required.".data)
  else if f.isEmailType && !value.isEmpty then
    if !emailRegexTest value then
      (false, "Please enter a valid email address.".data)
    else
      (true, [])
  else
    (true, [])

/-- `validateField` (main.js lines 293-322): computes the verdict, then
toggles the `is-valid`/`is-invalid` classes and, when invalid and an
`.invalid-feedback` sibling exists, writes the message into it.  Returns the
verdict together with the updated field element. -/
def validateField (f : FieldEl) : Bool × FieldEl :=
  let r := validateFieldCore f
  if r.1 then
    (true, { f with isInvalidClass := false, isValidClass := true })
  else
    (false, { f with
                isValidClass := false
                isInvalidClass := true
                feedbackText := f.feedbackText.map (fun _ => r.2) })

/-- `validateForm` (main.js lines 280-291): selects the fields carrying the
`required` attribute, runs `validateField` on every one of them (the loop
never breaks early), and lowers the accumulator to `false` whenever one
fails.  Returns the final flag and the updated fields in order. -/
def validateForm (form : List FieldEl) : Bool × List FieldEl :=
  let inputs := form.filter (·.required)
  inputs.foldl
    (fun acc input =>
      let r := validateField input
      (acc.1 && r.1, acc.2 ++ [r.2]))
    (true, [])

/-! ### Projects (main.js lines 163-250)

`loadProjects` awaits `fetch('data/projects.json')` and `response.json()`;
any rejection of either lands in the `catch` and triggers
`renderFallbackProjects`.  The fetch-and-parse outcome is modelled as
`Option (List Project)`: `some ps` for a successful parse, `none` for any
failure. -/

/-- A project entry `{title, image, description, live}`. -/
structure Project where
  title : String
  image : String
  description : String
  live : String
  deriving Repr, DecidableEq

/-- The DOM card produced by `createProjectCard` (main.js lines 184-214):
its content fields and the index used for the staggered animation delay. -/
structure Card where
  title : String
  image : String
  description : String
  live : String
  index : Nat
  deriving Repr, DecidableEq

/-- `createProjectCard(project, index)`. -/
def createProjectCard (p : Project) (index : Nat) : Card :=
  { title := p.title, image := p.image, description := p.description,
    live := p.live, index := index }

/-- `renderProjects` (main.js lines 174-182): clear the container
(`innerHTML = ''`, so the previous children are discarded) and append one
card per project in order. -/
def renderProjects (oldContainer : List Card) (projects : List Project) :
    List Card :=
  let _ := oldContainer
  projects.enum.map fun pi => createProjectCard pi.2 pi.1

/-- The fixed fallback list of `renderFallbackProjects` (main.js lines
217-246). -/
def fallbackProjects : List Project :=
  [{ title := "JAVA IN MY STYLE", image := "./java.png",
     description := "Deep learning model for image classification using TensorFlow and CNN architecture.",
     live := "https://techinmystyle.com/java%20in%20my%20style/" },
   { title := "JAVASCRIPT INTERMEDIATE IN MY STYLE", image := "./JAVASCRIPT.png",
     description := "Interactive dashboard for data visualization and analytics using Python and Streamlit.",
     live := "https://techinmystyle.com/javascript%20in%20my%20style%20-%20intermediate/" },
   { title := "ML IN MY STYLE", image := "./ml.png",
     description := "Real-time object detection and recognition using OpenCV and YOLO algorithm.",
     live := "https://techinmystyle.com/ml%20in%20my%20style/" },
   { title := "AI IN MY STYLE", image := "./ai.png",
     description := "Real-time object detection and recognition using OpenCV and YOLO algorithm.",
     live := "https://techinmystyle.com/ai%20in%20my%20style/" }]

/-- `loadProjects` (main.js lines 163-172): on a successful fetch/parse the
parsed array becomes `this.projects` and is rendered; on any failure
`renderFallbackProjects` installs the fallback list and renders it.
Returns the final `this.projects` and the container contents. -/
def loadProjects (fetchResult : Option (List Project))
    (oldContainer : List Card) : List Project × List Card :=
  match fetchResult with
  | some ps => (ps, renderProjects oldContainer ps)
  | none => (fallbackProjects, renderProjects oldContainer fallbackProjects)

/-! ### Theme store (main.js lines 29-61)

State: `this.currentTheme`, the `data-theme` attribute on the document
element, the persisted `localStorage` entry under `portfolio-theme`
(`none` = absent), and the icon class applied to the toggle icons. -/

/-- The theme-relevant state of the page. -/
structure ThemeState where
  currentTheme : String
  dataThemeAttr : Option String
  stored : Option String
  iconClass : String
  deriving Repr, DecidableEq

/-- `setTheme(theme)` (main.js lines 41-50): records the theme, sets the
document attribute, persists it, and updates the icon class. -/
def setTheme (s : ThemeState) (theme : String) : ThemeState :=
  { s with
      currentTheme := theme
      dataThemeAttr := some theme
      stored := some theme
      iconClass := if theme = "dark" then "bi bi-sun" else "bi bi-moon-stars" }

/-- `toggleTheme` (main.js lines 52-61): flips dark to light and anything
else to dark, then applies via `setTheme`. -/
def toggleTheme (s : ThemeState) : ThemeState :=
  setTheme s (if s.currentTheme = "dark" then "light" else "dark")

/-- JS `x || 'dark'` where `x` is `localStorage.getItem(...)`: `null`
(absent key) and the empty string are falsy and yield the default; every
other string is returned unchanged. -/
def jsOrDefault (v : Option String) (dflt : String) : String :=
  match v with
  | none => dflt
  | some s => if s = "" then dflt else s

/-- The load part of `setupTheme` (main.js lines 30-31):
`setTheme(localStorage.getItem('portfolio-theme') || 'dark')`. -/
def setupTheme (s : ThemeState) : ThemeState :=
  setTheme s (jsOrDefault s.stored "dark")

/-! ### Scroll coordinator (main.js lines 466-478)

The closure over `ticking`: each raw scroll event schedules one
`requestAnimationFrame` callback only when `ticking` is false, then sets
`ticking`.  The callback runs `handleScrollEffects` and clears `ticking`.
`queued` counts callbacks scheduled for the next frame and not yet run;
`updatesRun` counts callbacks that have executed. -/

/-- State of the scroll-throttling closure plus frame-callback bookkeeping. -/
structure ScrollCoord where
  ticking : Bool
  queued : Nat
  updatesRun : Nat
  deriving Repr, DecidableEq

/-- The initial state: `let ticking = false`, no callback pending. -/
def scrollCoordInit : ScrollCoord :=
  { ticking := false, queued := 0, updatesRun := 0 }

/-- The scroll listener (main.js lines 469-477): when `ticking` is false,
schedule one frame callback and set `ticking`; otherwise do nothing. -/
def onScrollEvent (s : ScrollCoord) : ScrollCoord :=
  if s.ticking then s
  else { s with ticking := true, queued := s.queued + 1 }

/-- A display frame fires: every queued callback runs, performing the visual
update and clearing `ticking`. -/
def runFrame (s : ScrollCoord) : ScrollCoord :=
  if s.queued = 0 then s
  else { ticking := false, queued := 0, updatesRun := s.updatesRun + s.queued }

/-- An event relevant to the scroll coordinator. -/
inductive ScrollEv where
  | scroll
  | frame
  deriving Repr, DecidableEq

/-- One step of the scroll coordinator. -/
def scrollStep (s : ScrollCoord) : ScrollEv → ScrollCoord
  | .scroll => onScrollEvent s
  | .frame => runFrame s

/-- Run a sequence of scroll/frame events from a state. -/
def runScrollEvents (s : ScrollCoord) (evs : List ScrollEv) : ScrollCoord :=
  evs.foldl scrollStep s

/-! ### Particle scene / WebGL (main.js lines 358-426, 534-544)

State covers `this.isWebGLEnabled`, the canvas `style.display`, the camera
aspect, the aspect baked into the projection matrix by
`updateProjectionMatrix`, the renderer size, whether an `animate` callback
is scheduled via `requestAnimationFrame`, and how many frames have been
rendered.  The aspect/size values are kept as width-height pairs. -/

/-- The particle-scene-relevant state of the app. -/
structure Scene where
  isWebGLEnabled : Bool
  canvasDisplay : String
  cameraAspectW : Nat
  cameraAspectH : Nat
  projAspectW : Nat
  projAspectH : Nat
  rendererW : Nat
  rendererH : Nat
  rafPending : Bool
  framesRendered : Nat
  deriving Repr, DecidableEq

/-- The body of `animate` (main.js lines 394-407): when `isWebGLEnabled`,
reschedule itself via `requestAnimationFrame`, advance the rotation and
render one frame; otherwise do nothing (in particular, do not reschedule). -/
def animateBody (sc : Scene) : Scene :=
  if sc.isWebGLEnabled then
    { sc with rafPending := true, framesRendered := sc.framesRendered + 1 }
  else sc

/-- A display frame fires: a scheduled `animate` callback (if any) is
consumed and its body runs. -/
def sceneFrame (sc : Scene) : Scene :=
  if sc.rafPending then animateBody { sc with rafPending := false } else sc

/-- The resize listener installed by `initWebGL` (main.js lines 412-423):
at width ≤ 768 disable WebGL and hide the canvas; at larger widths, when
currently disabled and the capability check passes, re-enable, show the
canvas, set the camera aspect, recompute the projection and resize the
renderer.  Nothing restarts the `animate` loop. -/
def sceneResize (sc : Scene) (w h : Nat) (webglSupported : Bool) : Scene :=
  if w ≤ 768 then
    { sc with isWebGLEnabled := false, canvasDisplay := "none" }
  else if !sc.isWebGLEnabled && webglSupported then
    { sc with
        isWebGLEnabled := true
        canvasDisplay := "block"
        cameraAspectW := w
        cameraAspectH := h
        projAspectW := w
        projAspectH := h
        rendererW := w
        rendererH := h }
  else sc

/-- `setupWebGL` (main.js lines 358-364) followed by `initWebGL` (lines
375-409): with width > 768 and WebGL support, build the scene (camera
aspect from the current viewport, renderer sized to it), call `animate()`
directly — whose body tests `this.isWebGLEnabled`, still false at that
point — and only afterwards set `isWebGLEnabled` to true.  Otherwise the
scene is left untouched and the flag stays false. -/
def setupWebGL (w h : Nat) (webglSupported : Bool) : Scene :=
  let sc0 : Scene :=
    { isWebGLEnabled := false, canvasDisplay := "",
      cameraAspectW := 0, cameraAspectH := 0,
      projAspectW := 0, projAspectH := 0,
      rendererW := 0, rendererH := 0,
      rafPending := false, framesRendered := 0 }
  if 768 < w && webglSupported then
    let sc1 := { sc0 with
                   cameraAspectW := w, cameraAspectH := h,
                   rendererW := w, rendererH := h }
    { animateBody sc1 with isWebGLEnabled := true }
  else sc0

/-- An event relevant to the particle scene after setup. -/
inductive SceneEv where
  | frame
  | resize (w h : Nat) (webglSupported : Bool)
  deriving Repr, DecidableEq

/-- One step of the particle scene. -/
def sceneStep (sc : Scene) : SceneEv → Scene
  | .frame => sceneFrame sc
  | .resize w h s => sceneResize sc w h s

/-- Run a sequence of frame/resize events from a scene state. -/
def runSceneEvents (sc : Scene) (evs : List SceneEv) : Scene :=
  evs.foldl sceneStep sc

/-! ### Visibility handler (main.js lines 535-544)

The document-level `visibilitychange` listener reads `window.portfolioApp`.
`main.js` creates the app with `new PortfolioApp()` on `DOMContentLoaded`
(line 502) and never assigns it to `window.portfolioApp`, so the property
is `undefined`; the handler's `app &&` guard then short-circuits. -/

/-- `window.portfolioApp` as left by main.js: the `DOMContentLoaded`
listener discards the constructed instance, so the property is never set. -/
def windowPortfolioApp : Option Scene := none

/-- The `visibilitychange` listener (main.js lines 535-544): when
`window.portfolioApp` is set and its `isWebGLEnabled` flag is true, set the
flag to false if the document is hidden and to true otherwise; in every
other case leave the app untouched. -/
def visibilityHandler (app : Option Scene) (documentHidden : Bool) :
    Option Scene :=
  match app with
  | none => none
  | some a =>
    if a.isWebGLEnabled then
      some { a with isWebGLEnabled := !documentHidden }
    else
      some a

/-! ### Contact form submission (main.js lines 324-348)

`handleFormSubmission` builds the mailto link with `encodeURIComponent`,
shows a toast, schedules the navigation with `setTimeout(..., 1000)`, and
then resets the form and clears the validation classes synchronously.  The
run is modelled as a list of effects, each tagged with the delay (in ms,
relative to the submission) after which it takes place: directly executed
statements carry delay 0 and appear in program order; the callback passed
to `setTimeout` carries delay 1000. -/

/-- The characters `encodeURIComponent` leaves unescaped:
`A-Z a-z 0-9 - _ . ! ~ * ' ( )`. -/
def uriUnreserved (c : Char) : Bool :=
  ('A' ≤ c && c ≤ 'Z') || ('a' ≤ c && c ≤ 'z') || ('0' ≤ c && c ≤ '9') ||
    c == '-' || c == '_' || c == '.' || c == '!' || c == '~' || c == '*' ||
    c == '\'' || c == '(' || c == ')'

/-- Upper-case hex digit of a value below 16. -/
def hexDigit (n : Nat) : Char :=
  if n < 10 then Char.ofNat (48 + n) else Char.ofNat (55 + n)

/-- The UTF-8 bytes of a character. -/
def utf8Bytes (c : Char) : List Nat :=
  let n := c.toNat
  if n < 0x80 then [n]
  else if n < 0x800 then [0xC0 + n / 0x40, 0x80 + n % 0x40]
  else if n < 0x10000 then
    [0xE0 + n / 0x1000, 0x80 + n / 0x40 % 0x40, 0x80 + n % 0x40]
  else
    [0xF0 + n / 0x40000, 0x80 + n / 0x1000 % 0x40, 0x80 + n / 0x40 % 0x40,
     0x80 + n % 0x40]

/-- `encodeURIComponent`: unreserved characters pass through, every other
character is replaced by the percent-encoding of its UTF-8 bytes. -/
def encodeURIComponent (s : String) : String :=
  ⟨s.data.flatMap fun c =>
    if uriUnreserved c then [c]
    else (utf8Bytes c).flatMap fun b => ['%', hexDigit (b / 16), hexDigit (b % 16)]⟩

/-- The mailto link of main.js lines 331-333. -/
def mailtoLink (name email message : String) : String :=
  let subject := encodeURIComponent ("Portfolio Contact from " ++ name)
  let body := encodeURIComponent
    ("Name: " ++ name ++ "\nEmail: " ++ email ++ "\n\nMessage:\n" ++ message)
  "mailto:syed.asadullah@example.com?subject=" ++ subject ++ "&body=" ++ body

/-- A side effect of `handleFormSubmission`. -/
inductive SubmitEffect where
  | showToast
  | navigate (url : String)
  | resetForm
  | clearValidationClasses
  deriving Repr, DecidableEq

/-- `handleFormSubmission` (main.js lines 324-348) as a list of timed
effects in program order: `showToast()` now, `window.location.href =
mailtoLink` scheduled 1000 ms later, `form.reset()` now, and the removal of
all `is-valid`/`is-invalid` classes now. -/
def handleFormSubmission (name email message : String) :
    List (Nat × SubmitEffect) :=
  [(0, .showToast),
   (1000, .navigate (mailtoLink name email message)),
   (0, .resetForm),
   (0, .clearValidationClasses)]

/-- The delay after which a given effect runs, when it occurs in the list. -/
def effectTime (trace : List (Nat × SubmitEffect)) (e : SubmitEffect) :
    Option Nat :=
  (trace.find? fun te => te.2 == e).map (·.1)

/-! ### Active-nav highlighting (main.js lines 92-108) -/

/-- A `section[id]` element: its id and vertical span. -/
structure SectionEl where
  id : String
  offsetTop : Int
  offsetHeight : Int
  deriving Repr, DecidableEq

/-- A `.nav-link` anchor: its `href` and whether it carries `active`. -/
structure NavLinkEl where
  href : String
  active : Bool
  deriving Repr, DecidableEq

/-- `document.querySelector` on `a[href="#id"]` followed by
`classList.add('active')`: mark the first link with the given href, leave
the rest unchanged; when no link matches, the optional chaining makes the
call a no-op. -/
def addActiveToFirst (href : String) : List NavLinkEl → List NavLinkEl
  | [] => []
  | l :: ls =>
    if l.href = href then { l with active := true } :: ls
    else l :: addActiveToFirst href ls

/-- `updateActiveNavItem` (main.js lines 92-108): with `scrollPos = scrollY
+ 100`, visit every section in order; when the section's span contains
`scrollPos`, remove `active` from every nav link and add it to the first
link whose href is `"#" ++ id`; otherwise leave the links untouched. -/
def updateActiveNavItem (scrollY : Int) (sections : List SectionEl)
    (links : List NavLinkEl) : List NavLinkEl :=
  let scrollPos := scrollY + 100
  sections.foldl
    (fun ls sec =>
      if sec.offsetTop ≤ scrollPos ∧ scrollPos < sec.offsetTop + sec.offsetHeight then
        addActiveToFirst ("#" ++ sec.id) (ls.map fun l => { l with active := false })
      else ls)
    links

/-! ### Helper lemmas -/

/-- Trimming a list of JS whitespace yields the empty list. -/
lemma jsTrim_eq_nil_of_all_ws (v : List Char) (h : v.all isJsWhitespace = true) :
    jsTrim v = [] := by
  have h1 : v.dropWhile isJsWhitespace = [] := by
    rw [List.dropWhile_eq_nil_iff]
    intro x hx
    exact List.all_eq_true.mp h x hx
  simp [jsTrim, h1]

/-- A field failing `validateField` ends up carrying `is-invalid`. -/
lemma validateField_invalid_class (f : FieldEl)
    (h : (validateField f).1 = false) :
    ((validateField f).2).isInvalidClass = true := by
  unfold validateField at h ⊢
  by_cases h1 : (validateFieldCore f).1 <;> simp [h1] at h ⊢

/-- Closed form of the `validateForm` fold. -/
lemma validateForm_foldl (inputs : List FieldEl) (b : Bool) (acc : List FieldEl) :
    (inputs.foldl
      (fun acc input =>
        let r := validateField input
        (acc.1 && r.1, acc.2 ++ [r.2]))
      (b, acc)) =
    (b && inputs.all (fun f => (validateField f).1),
     acc ++ inputs.map (fun f => (validateField f).2)) := by
  induction inputs generalizing b acc with
  | nil => simp
  | cons x xs ih => simp [ih, Bool.and_assoc]

/-! ### Claims -/

/-- Claim C1: reading a field's "value" as the trimmed value the code
computes first (the trimming itself is claim C9), `validateField`'s
verdict/message computation returns invalid with "This field is required."
when the field is required and the value is empty; invalid with "Please
enter a valid email address." when the field is an email field, the value
is non-empty and it fails the regex (the email check dominates the required
check once the value is non-empty, since a required field never reaches the
email branch only when the value is empty); and valid with the empty
message in every other case. -/
theorem validateField_verdicts (f : FieldEl) :
    (f.required = true ∧ jsTrim f.value = [] →
       validateFieldCore f = (false, "This field is required.".data)) ∧
    (f.isEmailType = true ∧ jsTrim f.value ≠ [] ∧
        emailRegexTest (jsTrim f.value) = false →
       validateFieldCore f = (false, "Please enter a valid email address.".data)) ∧
    (¬(f.required = true ∧ jsTrim f.value = []) ∧
     ¬(f.isEmailType = true ∧ jsTrim f.value ≠ [] ∧
         emailRegexTest (jsTrim f.value) = false) →
       validateFieldCore f = (true, [])) := by
  refine ⟨?_, ?_, ?_⟩
  · rintro ⟨hr, hv⟩
    simp [validateFieldCore, hr, hv]
  · rintro ⟨he, hv, hm⟩
    have hne : (jsTrim f.value).isEmpty = false := by
      simpa [List.isEmpty_iff] using hv
    simp [validateFieldCore, he, hne, hm]
  · rintro ⟨h1, h2⟩
    by_cases hv : jsTrim f.value = []
    · have hr : f.required = false := by
        by_contra hr
        exact h1 ⟨by simpa using hr, hv⟩
      simp [validateFieldCore, hr, hv]
    · have hne : (jsTrim f.value).isEmpty = false := by
        simpa [List.isEmpty_iff] using hv
      by_cases he : f.isEmailType
      · have hm : emailRegexTest (jsTrim f.value) = true := by
          by_contra hm
          exact h2 ⟨he, hv, by simpa using hm⟩
        simp [validateFieldCore, hne, hm]
      · simp [validateFieldCore, hne, he]

/-- Witness for claim C1 at concrete fields: a required field of blanks, a
required email field holding "a@b", and a plain field holding "hello". -/
theorem validateField_verdicts_witness :
    validateFieldCore ⟨"  ".data, true, false, false, false, none⟩ =
        (false, "This field is required.".data) ∧
    validateFieldCore ⟨"a@b".data, true, true, false, false, none⟩ =
        (false, "Please enter a valid email address.".data) ∧
    validateFieldCore ⟨"hello".data, false, false, false, false, none⟩ =
        (true, []) :=
  ⟨(validateField_verdicts _).1 ⟨rfl, by decide⟩,
   (validateField_verdicts _).2.1 ⟨rfl, by decide, by decide⟩,
   (validateField_verdicts _).2.2 ⟨by decide, by decide⟩⟩

/-- Claim C9: `validateField` trims before checking.  A required field whose
raw value is all whitespace is invalid with the required message, and a
non-required email field whose raw value is all whitespace is valid — the
email pattern is never applied to a whitespace-only value. -/
theorem validateField_trims_whitespace (f : FieldEl) :
    (f.required = true → f.value.all isJsWhitespace = true →
       validateFieldCore f = (false, "This field is required.".data)) ∧
    (f.required = false → f.isEmailType = true →
        f.value.all isJsWhitespace = true →
       validateFieldCore f = (true, [])) := by
  constructor
  · intro hr hw
    simp [validateFieldCore, hr, jsTrim_eq_nil_of_all_ws f.value hw]
  · intro hr he hw
    simp [validateFieldCore, hr, he, jsTrim_eq_nil_of_all_ws f.value hw]

/-- Witness for claim C9: a required text field holding a space and a tab,
and a non-required email field holding two spaces. -/
theorem validateField_trims_whitespace_witness :
    validateFieldCore ⟨[' ', '\t'], true, false, false, false, none⟩ =
        (false, "This field is required.".data) ∧
    validateFieldCore ⟨[' ', ' '], false, true, false, false, none⟩ =
        (true, []) :=
  ⟨(validateField_trims_whitespace ⟨[' ', '\t'], true, false, false, false, none⟩).1
      rfl (by decide),
   (validateField_trims_whitespace ⟨[' ', ' '], false, true, false, false, none⟩).2
      rfl rfl (by decide)⟩

/-- Claim C10: when no section's vertical span contains `scrollY + 100`,
`updateActiveNavItem` returns the nav links unchanged — no active marker is
cleared or added, because the clearing happens only inside the branch where
a containing section is found. -/
theorem updateActiveNavItem_no_containing_section (scrollY : Int)
    (sections : List SectionEl) (links : List NavLinkEl)
    (h : ∀ sec ∈ sections,
      ¬(sec.offsetTop ≤ scrollY + 100 ∧
        scrollY + 100 < sec.offsetTop + sec.offsetHeight)) :
    updateActiveNavItem scrollY sections links = links := by
  unfold updateActiveNavItem
  induction sections generalizing links with
  | nil => rfl
  | cons sec rest ih =>
    have hsec := h sec (List.mem_cons_self sec rest)
    rw [List.foldl_cons, if_neg hsec]
    exact ih links fun s hs => h s (List.mem_cons_of_mem sec hs)

/-- Witness for claim C10: scroll position 100 lies in no section's span,
so an already-active link stays active and an inactive one stays inactive. -/
theorem updateActiveNavItem_no_containing_section_witness :
    updateActiveNavItem 0 [⟨"about", 500, 300⟩, ⟨"projects", 800, 400⟩]
        [⟨"#about", true⟩, ⟨"#projects", false⟩] =
      [⟨"#about", true⟩, ⟨"#projects", false⟩] :=
  updateActiveNavItem_no_containing_section 0
    [⟨"about", 500, 300⟩, ⟨"projects", 800, 400⟩]
    [⟨"#about", true⟩, ⟨"#projects", false⟩] (by decide)

/-- Claim C2: `validateForm` returns the logical AND of `validateField`
over all required fields, it evaluates `validateField` on every required
field without short-circuiting (the result list updates every required
field, in order), and therefore every invalid required field ends up in the
same pass carrying the `is-invalid` visual feedback. -/
theorem validateForm_all_required (form : List FieldEl) :
    (validateForm form).1 =
        ((form.filter (·.required)).all fun f => (validateField f).1) ∧
    (validateForm form).2 =
        ((form.filter (·.required)).map fun f => (validateField f).2) ∧
    (∀ f ∈ form.filter (·.required), (validateField f).1 = false →
       (validateField f).2 ∈ (validateForm form).2 ∧
       ((validateField f).2).isInvalidClass = true) := by
  have key : validateForm form =
      ((form.filter (·.required)).all fun f => (validateField f).1,
       (form.filter (·.required)).map fun f => (validateField f).2) := by
    unfold validateForm
    simpa using validateForm_foldl (form.filter (·.required)) true []
  refine ⟨by rw [key], by rw [key], ?_⟩
  intro f hf hbad
  refine ⟨?_, validateField_invalid_class f hbad⟩
  rw [key]
  exact List.mem_map_of_mem (fun f => (validateField f).2) hf

/-- Witness for claim C2 on a concrete three-field form (an empty required
name, a malformed required email, a non-required field): the form is
rejected, both required fields are updated in the same pass, and the
invalid email field carries `is-invalid`. -/
theorem validateForm_all_required_witness :
    (validateForm
        [⟨[], true, false, false, false, some []⟩,
         ⟨"a@b".data, true, true, false, false, some []⟩,
         ⟨[], false, false, false, false, none⟩]).1 =
      (([⟨[], true, false, false, false, some []⟩,
         ⟨"a@b".data, true, true, false, false, some []⟩,
         (⟨[], false, false, false, false, none⟩ : FieldEl)].filter
            (·.required)).all fun f => (validateField f).1) ∧
    (validateField (⟨"a@b".data, true, true, false, false, some []⟩ : FieldEl)).2 ∈
        (validateForm
          [⟨[], true, false, false, false, some []⟩,
           ⟨"a@b".data, true, true, false, false, some []⟩,
           ⟨[], false, false, false, false, none⟩]).2 ∧
    ((validateField (⟨"a@b".data, true, true, false, false, some []⟩ : FieldEl)).2).isInvalidClass = true := by
  refine ⟨(validateForm_all_required _).1, ?_, ?_⟩
  · exact ((validateForm_all_required
      [⟨[], true, false, false, false, some []⟩,
       ⟨"a@b".data, true, true, false, false, some []⟩,
       ⟨[], false, false, false, false, none⟩]).2.2
      ⟨"a@b".data, true, true, false, false, some []⟩ (by decide) (by decide)).1
  · exact ((validateForm_all_required
      [⟨[], true, false, false, false, some []⟩,
       ⟨"a@b".data, true, true, false, false, some []⟩,
       ⟨[], false, false, false, false, none⟩]).2.2
      ⟨"a@b".data, true, true, false, false, some []⟩ (by decide) (by decide)).2

/-- Claim C3: when the fetch or parse fails, `loadProjects` renders exactly
the 4 built-in fallback projects in their fixed order (whatever the
container held before); when the fetch succeeds with an empty array, the
gallery renders 0 cards. -/
theorem loadProjects_fallback_and_empty (oldContainer : List Card) :
    (loadProjects none oldContainer).2 =
      [⟨"JAVA IN MY STYLE", "./java.png",
        "Deep learning model for image classification using TensorFlow and CNN architecture.",
        "https://techinmystyle.com/java%20in%20my%20style/", 0⟩,
       ⟨"JAVASCRIPT INTERMEDIATE IN MY STYLE", "./JAVASCRIPT.png",
        "Interactive dashboard for data visualization and analytics using Python and Streamlit.",
        "https://techinmystyle.com/javascript%20in%20my%20style%20-%20intermediate/", 1⟩,
       ⟨"ML IN MY STYLE", "./ml.png",
        "Real-time object detection and recognition using OpenCV and YOLO algorithm.",
        "https://techinmystyle.com/ml%20in%20my%20style/", 2⟩,
       ⟨"AI IN MY STYLE", "./ai.png",
        "Real-time object detection and recognition using OpenCV and YOLO algorithm.",
        "https://techinmystyle.com/ai%20in%20my%20style/", 3⟩] ∧
    (loadProjects none oldContainer).1 = fallbackProjects ∧
    (loadProjects (some []) oldContainer).2 = [] ∧
    ((loadProjects (some []) oldContainer).2).length = 0 :=
  ⟨rfl, rfl, rfl, rfl⟩

/-- Claim C4 as stated is violated by a corrupt persisted value: with
`"blue"` stored, `setupTheme` applies `"blue"` verbatim instead of the
default `"dark"` (JS `getItem(...) || 'dark'` only defaults `null` and the
empty string), so a corrupt stored value is not treated as the default. -/
theorem setupTheme_corrupt_value_counterexample :
    (setupTheme ⟨"dark", none, some "blue", ""⟩).currentTheme = "blue" ∧
    ¬(setupTheme ⟨"dark", none, some "blue", ""⟩).currentTheme = "dark" := by
  constructor
  · rfl
  · decide

/-- Claim C4 amended: toggling twice returns the original theme for the
legal themes dark/light; after every `setTheme`, `toggleTheme` and
`setupTheme` the persisted value and the document attribute equal the
last-applied theme; a missing or empty stored value is treated as the
default `"dark"` at load; but a non-empty corrupt stored value is applied
verbatim, not defaulted. -/
theorem theme_toggle_and_persistence (s : ThemeState) :
    (s.currentTheme = "dark" ∨ s.currentTheme = "light" →
       (toggleTheme (toggleTheme s)).currentTheme = s.currentTheme) ∧
    (∀ t, (setTheme s t).stored = some (setTheme s t).currentTheme ∧
          (setTheme s t).dataThemeAttr = some (setTheme s t).currentTheme) ∧
    ((toggleTheme s).stored = some (toggleTheme s).currentTheme) ∧
    ((setupTheme s).stored = some (setupTheme s).currentTheme) ∧
    (s.stored = none ∨ s.stored = some "" →
       (setupTheme s).currentTheme = "dark") ∧
    (∀ v, s.stored = some v → v ≠ "" → (setupTheme s).currentTheme = v) := by
  refine ⟨?_, fun t => ⟨rfl, rfl⟩, rfl, rfl, ?_, ?_⟩
  · rintro (h | h) <;> simp [toggleTheme, setTheme, h]
  · rintro (h | h) <;> simp [setupTheme, setTheme, jsOrDefault, h]
  · intro v hv hne
    simp [setupTheme, setTheme, jsOrDefault, hv, hne]

/-- Witness for the amended claim C4 at a concrete state: toggling twice
from dark returns to dark, the toggle persists what it applies, a missing
stored value loads as dark, and a stored `"light"` loads as `"light"`. -/
theorem theme_toggle_and_persistence_witness :
    (toggleTheme (toggleTheme ⟨"dark", some "dark", none, "bi bi-sun"⟩)).currentTheme = "dark" ∧
    (toggleTheme ⟨"dark", some "dark", none, "bi bi-sun"⟩).stored =
      some (toggleTheme ⟨"dark", some "dark", none, "bi bi-sun"⟩).currentTheme ∧
    (setupTheme ⟨"dark", some "dark", none, "bi bi-sun"⟩).currentTheme = "dark" ∧
    (setupTheme ⟨"dark", none, some "light", ""⟩).currentTheme = "light" :=
  ⟨(theme_toggle_and_persistence ⟨"dark", some "dark", none, "bi bi-sun"⟩).1 (Or.inl rfl),
   (theme_toggle_and_persistence ⟨"dark", some "dark", none, "bi bi-sun"⟩).2.2.1,
   (theme_toggle_and_persistence ⟨"dark", some "dark", none, "bi bi-sun"⟩).2.2.2.2.1 (Or.inl rfl),
   (theme_toggle_and_persistence ⟨"dark", none, some "light", ""⟩).2.2.2.2.2 "light" rfl (by decide)⟩

/-- The scroll-coordinator invariant: never more than one pending callback,
and the `ticking` guard is set exactly while one is pending. -/
def scrollCoordOk (s : ScrollCoord) : Prop :=
  s.queued ≤ 1 ∧ (s.ticking = true ↔ s.queued = 1)

/-- The invariant is preserved by every scroll/frame step. -/
lemma scrollStep_preserves (s : ScrollCoord) (e : ScrollEv)
    (h : scrollCoordOk s) : scrollCoordOk (scrollStep s e) := by
  obtain ⟨h1, h2⟩ := h
  cases e with
  | scroll =>
    by_cases ht : s.ticking
    · simpa [scrollStep, onScrollEvent, ht] using ⟨h1, h2⟩
    · have hq : s.queued = 0 := by
        rcases Nat.lt_or_ge s.queued 1 with hlt | hge
        · omega
        · exact absurd (h2.mpr (by omega)) (by simpa using ht)
      simp [scrollStep, onScrollEvent, ht, scrollCoordOk, hq]
  | frame =>
    by_cases hq : s.queued = 0
    · simpa [scrollStep, runFrame, hq] using ⟨h1, h2⟩
    · simp [scrollStep, runFrame, hq, scrollCoordOk]

/-- The invariant is preserved along any event sequence. -/
lemma runScrollEvents_preserves (evs : List ScrollEv) (s : ScrollCoord)
    (h : scrollCoordOk s) : scrollCoordOk (runScrollEvents s evs) := by
  induction evs generalizing s with
  | nil => exact h
  | cons e rest ih =>
    exact ih (scrollStep s e) (scrollStep_preserves s e h)

/-- The invariant holds after any event sequence from the initial state. -/
lemma runScrollEvents_ok (evs : List ScrollEv) :
    scrollCoordOk (runScrollEvents scrollCoordInit evs) :=
  runScrollEvents_preserves evs scrollCoordInit
    ⟨by simp [scrollCoordInit], by simp [scrollCoordInit]⟩

/-- Scroll events are absorbed once the guard is set. -/
lemma onScrollEvent_fixed (n : Nat) :
    runScrollEvents ⟨true, 1, 0⟩ (List.replicate n .scroll) = ⟨true, 1, 0⟩ := by
  induction n with
  | zero => rfl
  | succ m ih =>
    rw [List.replicate_succ]
    simpa [runScrollEvents, scrollStep, onScrollEvent] using ih


/-- Claim C5: at most one visual-update callback is ever pending per frame.
Along any sequence of scroll and frame events from the initial state at
most one callback is queued; N ≥ 1 scroll events within one frame interval
leave exactly one queued update; the `ticking` guard goes Idle→Queued on
the first event, absorbs every further scroll event, and returns to Idle
only when the deferred update runs (which runs exactly one update). -/
theorem scroll_one_update_per_frame :
    (∀ evs : List ScrollEv,
       (runScrollEvents scrollCoordInit evs).queued ≤ 1) ∧
    (∀ n : Nat, 1 ≤ n →
       runScrollEvents scrollCoordInit (List.replicate n .scroll) =
         ⟨true, 1, 0⟩) ∧
    onScrollEvent scrollCoordInit = ⟨true, 1, 0⟩ ∧
    (∀ s : ScrollCoord, s.ticking = true → onScrollEvent s = s) ∧
    (∀ s : ScrollCoord, s.queued = 1 →
       runFrame s = ⟨false, 0, s.updatesRun + 1⟩) := by
  refine ⟨fun evs => (runScrollEvents_ok evs).1, ?_, rfl, ?_, ?_⟩
  · intro n hn
    obtain ⟨m, rfl⟩ := Nat.exists_eq_add_of_le hn
    rw [List.replicate_add, List.replicate_one]
    have h1 : runScrollEvents scrollCoordInit [ScrollEv.scroll] = ⟨true, 1, 0⟩ := rfl
    unfold runScrollEvents at h1 ⊢
    rw [List.foldl_append, h1]
    exact onScrollEvent_fixed m
  · intro s hs
    simp [onScrollEvent, hs]
  · intro s hs
    simp [runFrame, hs]

/-- Witness for claim C5: three rapid scroll events queue exactly one
update; the queue stays ≤ 1 for a concrete scroll-frame-scroll trace; a set
guard absorbs a scroll; a frame with one queued callback runs it and
returns to Idle. -/
theorem scroll_one_update_per_frame_witness :
    (runScrollEvents scrollCoordInit [.scroll, .frame, .scroll]).queued ≤ 1 ∧
    runScrollEvents scrollCoordInit (List.replicate 3 .scroll) = ⟨true, 1, 0⟩ ∧
    onScrollEvent ⟨true, 1, 4⟩ = ⟨true, 1, 4⟩ ∧
    runFrame ⟨true, 1, 4⟩ = ⟨false, 0, 5⟩ :=
  ⟨scroll_one_update_per_frame.1 [.scroll, .frame, .scroll],
   scroll_one_update_per_frame.2.1 3 (by decide),
   scroll_one_update_per_frame.2.2.2.1 ⟨true, 1, 4⟩ rfl,
   scroll_one_update_per_frame.2.2.2.2 ⟨true, 1, 4⟩ rfl⟩

/-- Claim C6 names a behavior the code does not implement: the
`visibilitychange` listener dereferences `window.portfolioApp`, which
main.js never assigns, so hiding the tab changes nothing at all; and even
with the app reachable, once a hide has cleared `isWebGLEnabled` the
listener's own `app.isWebGLEnabled` guard blocks the visible branch, so the
flag never returns to true when the tab becomes visible again. -/
theorem visibility_handler_never_resumes :
    visibilityHandler windowPortfolioApp true = windowPortfolioApp ∧
    windowPortfolioApp = none ∧
    (∀ sc : Scene, sc.isWebGLEnabled = true →
       visibilityHandler (visibilityHandler (some sc) true) false =
         some { sc with isWebGLEnabled := false }) := by
  refine ⟨rfl, rfl, ?_⟩
  intro sc h
  simp [visibilityHandler, h]

/-- Witness for the C6 evaluation at a concrete running scene: hiding the
tab and then showing it again leaves the animation flag off. -/
theorem visibility_handler_never_resumes_witness :
    visibilityHandler
        (visibilityHandler
          (some ⟨true, "block", 1024, 768, 1024, 768, 1024, 768, false, 0⟩) true)
        false =
      some ⟨false, "block", 1024, 768, 1024, 768, 1024, 768, false, 0⟩ :=
  visibility_handler_never_resumes.2.2
    ⟨true, "block", 1024, 768, 1024, 768, 1024, 768, false, 0⟩ rfl

/-- A scene with no pending frame callback and no rendered frame stays that
way under every frame or resize event: nothing outside an active `animate`
callback ever calls `requestAnimationFrame` again. -/
lemma sceneStep_stalled (sc : Scene) (e : SceneEv)
    (h : sc.rafPending = false ∧ sc.framesRendered = 0) :
    (sceneStep sc e).rafPending = false ∧
      (sceneStep sc e).framesRendered = 0 := by
  cases e with
  | frame =>
    unfold sceneStep sceneFrame
    rw [h.1]
    simpa using h
  | resize w hh s =>
    unfold sceneStep sceneResize
    by_cases h1 : w ≤ 768
    · simp [h1, h.1, h.2]
    · by_cases h2 : (!sc.isWebGLEnabled && s) = true
      · simp [h1, h2, h.1, h.2]
      · simp [h1, h2, h.1, h.2]

/-- A stalled scene stays stalled along any event sequence. -/
lemma runSceneEvents_stalled (evs : List SceneEv) (sc : Scene)
    (h : sc.rafPending = false ∧ sc.framesRendered = 0) :
    (runSceneEvents sc evs).rafPending = false ∧
      (runSceneEvents sc evs).framesRendered = 0 := by
  induction evs generalizing sc with
  | nil => exact h
  | cons e rest ih => exact ih (sceneStep sc e) (sceneStep_stalled sc e h)

/-- `setupWebGL` never renders and never schedules a frame callback: the
direct `animate()` call inside `initWebGL` runs before `isWebGLEnabled` is
set to true, so its body bails out without calling
`requestAnimationFrame`. -/
lemma setupWebGL_stalled (w h : Nat) (s : Bool) :
    (setupWebGL w h s).rafPending = false ∧
      (setupWebGL w h s).framesRendered = 0 := by
  unfold setupWebGL
  split
  · exact ⟨rfl, rfl⟩
  · exact ⟨rfl, rfl⟩

/-- Claim C7's suspend half matches the code, but the resume half does not:
from a 1024×768 startup, resizing to width 500 clears `isWebGLEnabled` and
hides the canvas; resizing back to 1024 (capability check passing) sets the
flag, shows the canvas and recomputes the camera/projection aspect — yet no
`animate` callback is pending, and in fact along every frame/resize event
sequence from any startup the scene never renders a single frame, because
the loop's only reschedule point is inside a callback that never ran. -/
theorem webgl_resize_never_resumes :
    (sceneResize (setupWebGL 1024 768 true) 500 700 true).isWebGLEnabled = false ∧
    (sceneResize (setupWebGL 1024 768 true) 500 700 true).canvasDisplay = "none" ∧
    (sceneResize (sceneResize (setupWebGL 1024 768 true) 500 700 true)
        1024 768 true).isWebGLEnabled = true ∧
    (sceneResize (sceneResize (setupWebGL 1024 768 true) 500 700 true)
        1024 768 true).canvasDisplay = "block" ∧
    (sceneResize (sceneResize (setupWebGL 1024 768 true) 500 700 true)
        1024 768 true).cameraAspectW = 1024 ∧
    (sceneResize (sceneResize (setupWebGL 1024 768 true) 500 700 true)
        1024 768 true).cameraAspectH = 768 ∧
    (sceneResize (sceneResize (setupWebGL 1024 768 true) 500 700 true)
        1024 768 true).projAspectW = 1024 ∧
    (sceneResize (sceneResize (setupWebGL 1024 768 true) 500 700 true)
        1024 768 true).projAspectH = 768 ∧
    (sceneResize (sceneResize (setupWebGL 1024 768 true) 500 700 true)
        1024 768 true).rafPending = false ∧
    (∀ (w h : Nat) (s : Bool) (evs : List SceneEv),
       (runSceneEvents (setupWebGL w h s) evs).framesRendered = 0) := by
  refine ⟨rfl, rfl, rfl, rfl, rfl, rfl, rfl, rfl, rfl, ?_⟩
  intro w h s evs
  exact (runSceneEvents_stalled evs (setupWebGL w h s) (setupWebGL_stalled w h s)).2

set_option maxRecDepth 8192 in
/-- Claim C8 as stated is violated at a concrete submission: the form reset
is issued synchronously (delay 0 from the submission) while the navigation
to the mailto link is deferred by the fixed 1000 ms, so the reset precedes
the navigation instead of following it. -/
theorem submit_reset_precedes_navigation :
    effectTime (handleFormSubmission "Ada" "a@b.co" "Hi")
        SubmitEffect.resetForm = some 0 ∧
    effectTime (handleFormSubmission "Ada" "a@b.co" "Hi")
        (SubmitEffect.navigate (mailtoLink "Ada" "a@b.co" "Hi")) = some 1000 ∧
    ¬((effectTime (handleFormSubmission "Ada" "a@b.co" "Hi")
          (SubmitEffect.navigate (mailtoLink "Ada" "a@b.co" "Hi"))).getD 0 ≤
        (effectTime (handleFormSubmission "Ada" "a@b.co" "Hi")
          SubmitEffect.resetForm).getD 0) := by
  refine ⟨by decide, by decide, by decide⟩

/-- Claim C8 amended: on a validated submission the controller builds the
mailto URI with the URL-encoded subject "Portfolio Contact from {name}" and
a body containing the name, email and message, shows the confirmation
toast immediately, schedules the navigation to the mailto URI after the
fixed 1-second delay, and resets the form and clears the validation-state
decorations immediately — before the delayed navigation, not after it. -/
theorem handleFormSubmission_effects (name email message : String) :
    handleFormSubmission name email message =
      [(0, SubmitEffect.showToast),
       (1000, SubmitEffect.navigate
         ("mailto:syed.asadullah@example.com?subject=" ++
           encodeURIComponent ("Portfolio Contact from " ++ name) ++ "&body=" ++
           encodeURIComponent ("Name: " ++ name ++ "\nEmail: " ++ email ++
             "\n\nMessage:\n" ++ message))),
       (0, SubmitEffect.resetForm),
       (0, SubmitEffect.clearValidationClasses)] ∧
    (∀ (t : Nat) (e : SubmitEffect),
       (t, e) ∈ handleFormSubmission name email message →
       (e = SubmitEffect.resetForm ∨ e = SubmitEffect.clearValidationClasses ∨
           e = SubmitEffect.showToast → t = 0) ∧
       (∀ url, e = SubmitEffect.navigate url → t = 1000)) ∧
    (∃ l r, "Name: " ++ name ++ "\nEmail: " ++ email ++ "\n\nMessage:\n" ++
        message = l ++ name ++ r) ∧
    (∃ l r, "Name: " ++ name ++ "\nEmail: " ++ email ++ "\n\nMessage:\n" ++
        message = l ++ email ++ r) ∧
    (∃ l r, "Name: " ++ name ++ "\nEmail: " ++ email ++ "\n\nMessage:\n" ++
        message = l ++ message ++ r) := by
  refine ⟨rfl, ?_, ?_, ?_, ?_⟩
  · intro t e hmem
    simp [handleFormSubmission] at hmem
    rcases hmem with ⟨ht, he⟩ | ⟨ht, he⟩ | ⟨ht, he⟩ | ⟨ht, he⟩ <;>
      subst ht <;> subst he <;>
      refine ⟨fun hc => ?_, fun url hc => ?_⟩ <;> first
        | rfl
        | (rcases hc with h | h | h <;> simp at h)
  · refine ⟨"Name: ", "\nEmail: " ++ email ++ "\n\nMessage:\n" ++ message, ?_⟩
    simp [String.append_assoc]
  · refine ⟨"Name: " ++ name ++ "\nEmail: ", "\n\nMessage:\n" ++ message, ?_⟩
    simp [String.append_assoc]
  · refine ⟨"Name: " ++ name ++ "\nEmail: " ++ email ++ "\n\nMessage:\n", "", ?_⟩
    simp [String.append_assoc, String.append_empty]

set_option maxRecDepth 8192 in
/-- Witness for the amended claim C8 at a concrete submission: the reset
effect is in the trace at delay 0 and the navigation at delay 1000. -/
theorem handleFormSubmission_effects_witness :
    (0, SubmitEffect.resetForm) ∈ handleFormSubmission "Ada" "a@b.co" "Hi" ∧
    (0 : Nat) = 0 ∧ (1000 : Nat) = 1000 :=
  ⟨by decide,
   ((handleFormSubmission_effects "Ada" "a@b.co" "Hi").2.1 0
       SubmitEffect.resetForm (by decide)).1 (Or.inl rfl),
   ((handleFormSubmission_effects "Ada" "a@b.co" "Hi").2.1 1000
       (SubmitEffect.navigate (mailtoLink "Ada" "a@b.co" "Hi")) (by decide)).2
     (mailtoLink "Ada" "a@b.co" "Hi") rfl⟩

end Portfolio
